import Mathlib

/-
Verification of the warp runtime core (module compilation and caching,
builtin overload resolution, kernel launch marshaling, tape recording,
array allocation and copy) against its natural-language specification.

The Python sources are shallowly embedded: pure helper functions become
Lean functions, stateful operations become explicit state-passing
functions whose results also carry the list of externally observable
effects (toolchain invocations, native dispatches, allocations, memcpy
calls), and fallible code returns an error field or an Except value.
-/

namespace Warp

/-
Lexicographic code-point order on strings, mirroring how the Python
runtime of the source orders str keys in sorted(). The built-in Mathlib
order on String does not reduce inside the kernel, so the order is spelled
out over the character lists and proved total, transitive and
antisymmetric below.
-/

def clLe : List Char → List Char → Bool
  | [], _ => true
  | _ :: _, [] => false
  | a :: as, b :: bs =>
    if a.toNat < b.toNat then true
    else if b.toNat < a.toNat then false
    else clLe as bs

def strLe (a b : String) : Prop := clLe a.data b.data = true

instance : DecidableRel strLe := fun a b => by unfold strLe; infer_instance

theorem clLe_total (a b : List Char) : clLe a b = true ∨ clLe b a = true := by
  induction a generalizing b with
  | nil => left; rfl
  | cons x xs ih =>
    cases b with
    | nil => right; rfl
    | cons y ys =>
      simp only [clLe]
      rcases Nat.lt_trichotomy x.toNat y.toNat with h | h | h
      · left; simp [h]
      · have h2 : ¬ x.toNat < y.toNat := by omega
        have h3 : ¬ y.toNat < x.toNat := by omega
        rcases ih ys with hc | hc <;> simp [h2, h3, hc]
      · right; simp [h, Nat.lt_asymm h]

theorem clLe_antisymm (a b : List Char) (h1 : clLe a b = true) (h2 : clLe b a = true) : a = b := by
  induction a generalizing b with
  | nil =>
    cases b with
    | nil => rfl
    | cons y ys => simp [clLe] at h2
  | cons x xs ih =>
    cases b with
    | nil => simp [clLe] at h1
    | cons y ys =>
      simp only [clLe] at h1 h2
      rcases Nat.lt_trichotomy x.toNat y.toNat with h | h | h
      · simp [h, Nat.lt_asymm h] at h2
      · have h3 : ¬ x.toNat < y.toNat := by omega
        have h4 : ¬ y.toNat < x.toNat := by omega
        simp [h3, h4] at h1 h2
        have : x = y := Char.eq_of_val_eq (UInt32.ext h)
        rw [this, ih ys h1 h2]
      · simp [h, Nat.lt_asymm h] at h1

theorem clLe_trans (a b c : List Char) (h1 : clLe a b = true) (h2 : clLe b c = true) : clLe a c = true := by
  induction a generalizing b c with
  | nil => rfl
  | cons x xs ih =>
    cases b with
    | nil => simp [clLe] at h1
    | cons y ys =>
      cases c with
      | nil => simp [clLe] at h2
      | cons z zs =>
        simp only [clLe] at h1 h2 ⊢
        rcases Nat.lt_trichotomy x.toNat y.toNat with hxy | hxy | hxy <;>
        rcases Nat.lt_trichotomy y.toNat z.toNat with hyz | hyz | hyz <;>
        first
          | (simp [hxy, Nat.lt_asymm hxy] at h1; done)
          | (simp [hyz, Nat.lt_asymm hyz] at h2; done)
          | (have : x.toNat < z.toNat := by omega
             simp [this])
          | (have h3 : ¬ x.toNat < z.toNat := by omega
             have h4 : ¬ z.toNat < x.toNat := by omega
             have h5 : ¬ x.toNat < y.toNat := by omega
             have h6 : ¬ y.toNat < x.toNat := by omega
             have h7 : ¬ y.toNat < z.toNat := by omega
             have h8 : ¬ z.toNat < y.toNat := by omega
             simp [h3, h4]; simp [h5, h6] at h1; simp [h7, h8] at h2; exact ih ys zs h1 h2)

instance : IsTotal String strLe := ⟨fun a b => clLe_total a.data b.data⟩

instance : IsTrans String strLe := ⟨fun a b c => clLe_trans a.data b.data c.data⟩

instance : IsAntisymm String strLe :=
  ⟨fun a b h1 h2 => String.ext (clLe_antisymm a.data b.data h1 h2)⟩

/-
Type model. The kernel language types that the claims touch: integer and
float scalar types, fixed-size vector and matrix value types (ctypes.Array
subclasses in the source, identified by their component count), and typed
multi-dimensional arrays (warp.types.array, identified by element dtype
and dimension count ndim).
-/

inductive WType where
  | tint
  | tfloat
  | tuint32
  | vec (n : Nat)
  | arr (dtype : WType) (ndim : Nat)
deriving DecidableEq, Repr

/-- Modelled from the spec: the helper type_is_int lives in warp/types.py,
which is not among the provided sources. The spec requires index arguments
to be of integer type, so the predicate holds exactly for the integer
scalar types of the model. -/
def type_is_int : WType → Bool
  | .tint => true
  | .tuint32 => true
  | _ => false

/-- An argument node as seen by the resolution-time value functions: the
source passes codegen variable nodes and only reads their .type field. -/
structure Node where
  type : WType
deriving DecidableEq, Repr

/-- A Python value as returned by a value function resolver: None, a type,
or an arbitrary (non-type) Python object such as a function, identified by
name. The last case is what the mistaken value_type registration of the
4-index atomic_add overload produces. -/
inductive PyVal where
  | vnone
  | ty (t : WType)
  | pyfunc (name : String)
deriving DecidableEq, Repr

/-- Embedding of load_value_func from warp/builtins.py: argument checking
and type propagation for load. The source checks the index count against
the array dimension count (too few, then too many), then checks every
index for integer type, and returns the array element type. -/
def load_value_func (args : List Node) : Except String PyVal :=
  match args with
  | [] => .error "load() argument 0 must be an array"
  | a0 :: rest =>
    match a0.type with
    | .arr dtype ndim =>
      if rest.length < ndim then
        .error "Num indices < num dimensions for array load, this is a codegen error, should have generated a view instead"
      else if rest.length > ndim then
        .error "Num indices > num dimensions for array load"
      else if rest.all (fun a => type_is_int a.type) then
        .ok (.ty dtype)
      else
        .error "load() index arguments must be of integer type"
    | _ => .error "load() argument 0 must be an array"

/-- Embedding of view_value_func from warp/builtins.py: the index count
must be strictly less than the array dimension count, all indices must be
integers, and the result is a copy of the array type with the leading
dimensions removed. -/
def view_value_func (args : List Node) : Except String PyVal :=
  match args with
  | [] => .error "view() argument 0 must be an array"
  | a0 :: rest =>
    match a0.type with
    | .arr dtype ndim =>
      if rest.length ≥ ndim then
        .error "Trying to create an array view with more indices than the array has dimensions"
      else if rest.all (fun a => type_is_int a.type) then
        .ok (.ty (.arr dtype (ndim - rest.length)))
      else
        .error "view() index arguments must be of integer type"
    | _ => .error "view() argument 0 must be an array"

/-- Embedding of store_value_func from warp/builtins.py: the indices are
the arguments strictly between the array and the trailing value, their
count must equal the array dimension count, they must be integers, and the
trailing value type must equal the array element type exactly. -/
def store_value_func (args : List Node) : Except String PyVal :=
  match args with
  | [] => .error "store() argument 0 must be an array"
  | a0 :: rest =>
    match a0.type with
    | .arr dtype ndim =>
      let indices := rest.dropLast
      if indices.length < ndim then
        .error "Num indices < num dimensions for array store"
      else if indices.length > ndim then
        .error "Num indices > num dimensions for array store"
      else if indices.all (fun a => type_is_int a.type) = false then
        .error "store() index arguments must be of integer type"
      else if (rest.getLastD a0).type ≠ dtype then
        .error "store() value argument type must be of the same type as the array"
      else
        .ok .vnone
    | _ => .error "store() argument 0 must be an array"

/-- Embedding of atomic_op_value_type from warp/builtins.py: identical
checks to store_value_func, except that the result is the array element
type instead of None. -/
def atomic_op_value_type (args : List Node) : Except String PyVal :=
  match args with
  | [] => .error "atomic() operation argument 0 must be an array"
  | a0 :: rest =>
    match a0.type with
    | .arr dtype ndim =>
      let indices := rest.dropLast
      if indices.length < ndim then
        .error "Num indices < num dimensions for atomic array operation"
      else if indices.length > ndim then
        .error "Num indices > num dimensions for atomic array operation"
      else if indices.all (fun a => type_is_int a.type) = false then
        .error "atomic() operation index arguments must be of integer type"
      else if (rest.getLastD a0).type ≠ dtype then
        .error "atomic() value argument must be of the same type as the array"
      else
        .ok (.ty dtype)
    | _ => .error "atomic() operation argument 0 must be an array"

/-- Embedding of the value_func wrapping performed by add_builtin in
warp/context.py: when no value_func is supplied, the registered resolver
is a constant function returning whatever object was passed as
value_type. -/
def add_builtin_value_func (value_func : Option (List Node → Except String PyVal))
    (value_type : PyVal) : List Node → Except String PyVal :=
  match value_func with
  | Option.none => fun _ => .ok value_type
  | Option.some f => f

/-- One registered overload: its key, the number of declared parameters in
its input_types signature, and the resolver produced by add_builtin. -/
structure Overload where
  key : String
  num_params : Nat
  value_func : List Node → Except String PyVal

/-- The four atomic_add overloads exactly as registered in
warp/builtins.py: the 1-, 2- and 3-index overloads pass
value_func=atomic_op_value_type, while the 4-index overload passes the
checker as value_type instead (with value_func left at None), so
add_builtin wraps it into a constant resolver. -/
def atomic_add_overloads : List Overload :=
  [ ⟨"atomic_add", 3, add_builtin_value_func (Option.some atomic_op_value_type) PyVal.vnone⟩,
    ⟨"atomic_add", 4, add_builtin_value_func (Option.some atomic_op_value_type) PyVal.vnone⟩,
    ⟨"atomic_add", 5, add_builtin_value_func (Option.some atomic_op_value_type) PyVal.vnone⟩,
    ⟨"atomic_add", 6, add_builtin_value_func Option.none (PyVal.pyfunc "atomic_op_value_type")⟩ ]

/-- The four atomic_sub overloads exactly as registered in
warp/builtins.py: all four pass value_func=atomic_op_value_type. -/
def atomic_sub_overloads : List Overload :=
  [ ⟨"atomic_sub", 3, add_builtin_value_func (Option.some atomic_op_value_type) PyVal.vnone⟩,
    ⟨"atomic_sub", 4, add_builtin_value_func (Option.some atomic_op_value_type) PyVal.vnone⟩,
    ⟨"atomic_sub", 5, add_builtin_value_func (Option.some atomic_op_value_type) PyVal.vnone⟩,
    ⟨"atomic_sub", 6, add_builtin_value_func (Option.some atomic_op_value_type) PyVal.vnone⟩ ]

/-- A resolution of the 4-index atomic_add overload that violates the
store rules: a 4-dimensional float array, four integer indices, and a
trailing value whose type (int) differs from the array element type
(float). -/
def atomicAdd4BadArgs : List Node :=
  [ ⟨WType.arr WType.tfloat 4⟩, ⟨WType.tint⟩, ⟨WType.tint⟩, ⟨WType.tint⟩, ⟨WType.tint⟩,
    ⟨WType.tint⟩ ]

/-- Claim C5: a load(array, idx0..idxN) resolution succeeds exactly when N
equals the array dimension count and every index is of integer type, in
which case the result type is the array element type; any violation of the
dimension-count rule or the integer-index rule yields a Resolution
Error. -/
theorem load_resolution_exact (dtype : WType) (ndim : Nat) (idx : List Node) :
    (idx.length = ndim ∧ idx.all (fun a => type_is_int a.type) = true →
      load_value_func (Node.mk (WType.arr dtype ndim) :: idx) = Except.ok (PyVal.ty dtype))
    ∧ (idx.length ≠ ndim →
      ∃ msg, load_value_func (Node.mk (WType.arr dtype ndim) :: idx) = Except.error msg)
    ∧ (idx.all (fun a => type_is_int a.type) = false →
      ∃ msg, load_value_func (Node.mk (WType.arr dtype ndim) :: idx) = Except.error msg) := by
  refine ⟨?_, ?_, ?_⟩
  · rintro ⟨h1, h2⟩
    simp [load_value_func, h1, h2]
  · intro h
    rcases Nat.lt_or_ge idx.length ndim with h2 | h2
    · exact ⟨_, by simp [load_value_func, h2]; rfl⟩
    · have h3 : idx.length > ndim := Nat.lt_of_le_of_ne h2 (Ne.symm h)
      exact ⟨_, by simp [load_value_func, Nat.not_lt.mpr h2, h3]; rfl⟩
  · intro h
    by_cases h1 : idx.length < ndim
    · exact ⟨_, by simp [load_value_func, h1]; rfl⟩
    · by_cases h2 : idx.length > ndim
      · exact ⟨_, by simp [load_value_func, h1, h2]; rfl⟩
      · exact ⟨_, by simp [load_value_func, h1, h2, h]; rfl⟩

/-- Witness for load_resolution_exact: a 2-dimensional float array indexed
with two integers resolves to float, and the same array indexed with one
integer is a Resolution Error. -/
theorem load_resolution_exact_witness :
    load_value_func [Node.mk (WType.arr WType.tfloat 2), Node.mk WType.tint, Node.mk WType.tint]
      = Except.ok (PyVal.ty WType.tfloat)
    ∧ ∃ msg, load_value_func [Node.mk (WType.arr WType.tfloat 2), Node.mk WType.tint]
      = Except.error msg :=
  ⟨(load_resolution_exact WType.tfloat 2 [Node.mk WType.tint, Node.mk WType.tint]).1 (by decide),
   (load_resolution_exact WType.tfloat 2 [Node.mk WType.tint]).2.1 (by decide)⟩

/-- Claim C6: a view(array, indices...) resolution requires the number of
indices to be strictly less than the array dimension count (supplying at
least as many indices as dimensions is a Resolution Error), and on success
(with integer indices) the result is a view descriptor over the same
element type whose dimension count is the array dimension count minus the
number of supplied indices. -/
theorem view_resolution_strict (dtype : WType) (ndim : Nat) (idx : List Node) :
    (idx.length < ndim ∧ idx.all (fun a => type_is_int a.type) = true →
      view_value_func (Node.mk (WType.arr dtype ndim) :: idx)
        = Except.ok (PyVal.ty (WType.arr dtype (ndim - idx.length))))
    ∧ (idx.length ≥ ndim →
      ∃ msg, view_value_func (Node.mk (WType.arr dtype ndim) :: idx) = Except.error msg) := by
  constructor
  · rintro ⟨h1, h2⟩
    simp [view_value_func, Nat.not_le.mpr h1, h2]
  · intro h
    exact ⟨_, by simp [view_value_func, h]; rfl⟩

/-- Witness for view_resolution_strict: a 3-dimensional float array viewed
with one integer index resolves to a 2-dimensional view, and viewing it
with three indices is a Resolution Error. -/
theorem view_resolution_strict_witness :
    view_value_func [Node.mk (WType.arr WType.tfloat 3), Node.mk WType.tint]
      = Except.ok (PyVal.ty (WType.arr WType.tfloat 2))
    ∧ ∃ msg, view_value_func
        [Node.mk (WType.arr WType.tfloat 3), Node.mk WType.tint, Node.mk WType.tint,
          Node.mk WType.tint] = Except.error msg :=
  ⟨(view_resolution_strict WType.tfloat 3 [Node.mk WType.tint]).1 (by decide),
   (view_resolution_strict WType.tfloat 3
      [Node.mk WType.tint, Node.mk WType.tint, Node.mk WType.tint]).2 (by decide)⟩

/-- Claim C3: the claim states that every atomic_add and atomic_sub
overload (1 through 4 index arguments) enforces the store rules at
resolution time. The 4-index atomic_add overload in warp/builtins.py was
registered with value_type=atomic_op_value_type instead of
value_func=atomic_op_value_type, so add_builtin wraps the checker function
into a constant resolver: on arguments that violate the store rules (value
type int against a float array) that overload resolves without error and
returns the checker function object as the result type, while
atomic_op_value_type itself would have rejected those arguments, as every
other atomic overload does. -/
theorem atomic_add_4idx_checks_skipped :
    (atomic_add_overloads.get ⟨3, by decide⟩).value_func atomicAdd4BadArgs
      = Except.ok (PyVal.pyfunc "atomic_op_value_type")
    ∧ atomic_op_value_type atomicAdd4BadArgs
      = Except.error "atomic() value argument must be of the same type as the array"
    ∧ (atomic_sub_overloads.get ⟨3, by decide⟩).value_func atomicAdd4BadArgs
      = Except.error "atomic() value argument must be of the same type as the array" := by
  refine ⟨rfl, rfl, rfl⟩

/-
Module model. Python dict fields (kernels, functions, options) are
embedded as insertion-ordered association lists; assignment to an existing
key updates the stored value in place, assignment to a new key appends.
-/

def dictInsert {α : Type} : List (String × α) → String → α → List (String × α)
  | [], k, v => [(k, v)]
  | (k0, v0) :: rest, k, v =>
    if k0 = k then (k, v) :: rest else (k0, v0) :: dictInsert rest k v

def dictContains {α : Type} (l : List (String × α)) (k : String) : Bool :=
  l.any (fun kv => kv.1 = k)

def dictLookup {α : Type} : List (String × α) → String → Option α
  | [], _ => Option.none
  | (k0, v0) :: rest, k => if k0 = k then Option.some v0 else dictLookup rest k

theorem dictLookup_dictInsert {α : Type} (l : List (String × α)) (k : String) (v : α) :
    dictLookup (dictInsert l k v) k = Option.some v := by
  induction l with
  | nil => simp [dictInsert, dictLookup]
  | cons kv rest ih =>
    by_cases h : kv.1 = k
    · simp [dictInsert, dictLookup, h]
    · simp [dictInsert, dictLookup, h, ih]

theorem dictLookup_perm {α : Type} {l1 l2 : List (String × α)}
    (hp : l1.Perm l2) (hnd : (l1.map Prod.fst).Nodup) (k : String) :
    dictLookup l1 k = dictLookup l2 k := by
  induction hp with
  | nil => rfl
  | cons x _ ih =>
    simp only [List.map_cons, List.nodup_cons] at hnd
    simp only [dictLookup]
    by_cases h : x.1 = k
    · simp [h]
    · simp [h, ih hnd.2]
  | swap x y l =>
    simp only [List.map_cons, List.nodup_cons, List.mem_cons] at hnd
    have hxy : y.1 ≠ x.1 := fun h => hnd.1 (Or.inl h)
    simp only [dictLookup]
    by_cases h1 : y.1 = k
    · have h2 : x.1 ≠ k := fun h => hxy (h1.trans h.symm)
      simp [h1, h2]
    · by_cases h2 : x.1 = k <;> simp [h1, h2]
  | trans h12 _ ih12 ih23 =>
    have hnd2 := ((h12.map Prod.fst).nodup_iff).mp hnd
    exact (ih12 hnd).trans (ih23 hnd2)

/-- A kernel as the Module sees it: its key and the source text of its
adjoint representation (kernel.adj.source), which is what hash_module
feeds into the digest. -/
structure MKernel where
  key : String
  source : String
deriving DecidableEq, Repr

/-- A user function as the Module sees it: its key and the source text of
its adjoint representation. -/
structure MFunction where
  key : String
  source : String
deriving DecidableEq, Repr

/-- The Module state from warp/context.py: kernel and function mappings in
insertion order, the backend artifact handles dll and cuda (None when not
loaded), the loaded and build_failed flags, and the compiler options
mapping. Handles are modelled as opaque numbers. -/
structure Module where
  name : String
  kernels : List (String × MKernel)
  functions : List (String × MFunction)
  dll : Option Nat
  cuda : Option Nat
  loaded : Bool
  build_failed : Bool
  options : List (String × String)
deriving DecidableEq, Repr

/-- Embedding of Module.register_kernel: when the key is already present
the source unloads both artifacts (an external side effect), forces the
dll and cuda handles to None and clears loaded, then stores the new kernel
under the key in either case. -/
def Module.register_kernel (m : Module) (k : MKernel) : Module :=
  if dictContains m.kernels k.key then
    { m with dll := Option.none, cuda := Option.none, loaded := false,
             kernels := dictInsert m.kernels k.key k }
  else
    { m with kernels := dictInsert m.kernels k.key k }

/-- Embedding of Module.register_function. -/
def Module.register_function (m : Module) (f : MFunction) : Module :=
  { m with functions := dictInsert m.functions f.key f }

def sortedKeys (opts : List (String × String)) : List String :=
  List.insertionSort strLe (opts.map Prod.fst)

/-- Embedding of Module.hash_module: the SHA-256 digest is a fixed
deterministic function of the successive update chunks, so the digest is
modelled as the list of chunks fed to update, in order: every function
source in mapping order, every kernel source in mapping order, every
compiler option rendered as key=value with the keys iterated in sorted
order, and the global digest of the compile-time constants
(constant.get_hash(), an input here since the constant registry is global
state outside the Module). Two digests are byte-identical exactly when
these chunk lists are equal. -/
def Module.hash_module (m : Module) (constant_hash : String) : List String :=
  (m.functions.map (fun kv => kv.2.source))
  ++ (m.kernels.map (fun kv => kv.2.source))
  ++ (sortedKeys m.options).map (fun k => k ++ "=" ++ ((dictLookup m.options k).getD ""))
  ++ [constant_hash]

/-- Observable steps of Module.load: computing the content hash,
regenerating kernel source, and invoking the native toolchain per
backend. -/
inductive BuildStep where
  | computeHash
  | genSource
  | compileCpu
  | compileCuda
deriving DecidableEq, Repr

/-- Environment of a Module.load call: the kernel cache configuration and
the contents of the persisted hash file, backend availability, the result
of loading the cached artifact files (None when the file is missing or
fails to load), whether the toolchain invocations of this call succeed,
and the result of loading the freshly built artifacts. -/
structure BuildEnv where
  cache_kernels : Bool
  cached_hash : Option (List String)
  enable_cpu : Bool
  enable_cuda : Bool
  dll_file_loadable : Option Nat
  ptx_file_loadable : Option Nat
  toolchain_ok : Bool
  built_dll : Option Nat
  built_cuda : Option Nat
  constant_hash : String
deriving DecidableEq, Repr

/-- Result of a Module.load call: the updated module, the outcome (Some b
when load returned b, None when it raised), and the observable steps in
order. -/
structure LoadResult where
  module : Module
  outcome : Option Bool
  steps : List BuildStep
deriving DecidableEq, Repr

/-- Embedding of Module.load: an early return False when build_failed is
already set (before any hash computation), then the cache check (a
backend's rebuild is skipped when the persisted hash matches and its
cached artifact loads), source regeneration and toolchain invocation for
the backends still needing a rebuild (a toolchain failure sets
build_failed and raises; the single toolchain_ok flag models the outcome
of the try block around both compile calls), and finally artifact loading,
where a missing required artifact raises without touching build_failed. -/
def Module.load (m : Module) (env : BuildEnv) : LoadResult :=
  if m.build_failed = true then ⟨m, Option.some false, []⟩
  else
    let module_hash := m.hash_module env.constant_hash
    let dllCache : Option Nat :=
      if env.cache_kernels = true ∧ env.cached_hash = Option.some module_hash ∧ env.enable_cpu = true
      then env.dll_file_loadable else Option.none
    let cudaCache : Option Nat :=
      if env.cache_kernels = true ∧ env.cached_hash = Option.some module_hash ∧ env.enable_cuda = true
      then env.ptx_file_loadable else Option.none
    let build_cpu : Bool := env.enable_cpu && dllCache.isNone
    let build_cuda : Bool := env.enable_cuda && cudaCache.isNone
    if (env.cache_kernels = true ∧ env.cached_hash = Option.some module_hash)
        ∧ build_cpu = false ∧ build_cuda = false then
      ⟨{ m with dll := dllCache, cuda := cudaCache, loaded := true },
        Option.some true, [BuildStep.computeHash]⟩
    else
      let compiles := (if build_cpu = true then [BuildStep.compileCpu] else [])
        ++ (if build_cuda = true then [BuildStep.compileCuda] else [])
      let steps := BuildStep.computeHash :: BuildStep.genSource :: compiles
      if (build_cpu = true ∨ build_cuda = true) ∧ env.toolchain_ok = false then
        ⟨{ m with build_failed := true, dll := dllCache, cuda := cudaCache },
          Option.none, steps⟩
      else
        let dllNew := if build_cpu = true then env.built_dll else dllCache
        let cudaNew := if build_cuda = true then env.built_cuda else cudaCache
        if env.enable_cpu = true ∧ dllNew = Option.none then
          ⟨{ m with dll := dllNew, cuda := cudaNew }, Option.none, steps⟩
        else if env.enable_cuda = true ∧ cudaNew = Option.none then
          ⟨{ m with dll := dllNew, cuda := cudaNew }, Option.none, steps⟩
        else
          ⟨{ m with dll := dllNew, cuda := cudaNew, loaded := true },
            Option.some true, steps⟩

theorem load_of_build_failed (m : Module) (env : BuildEnv) (h : m.build_failed = true) :
    m.load env = ⟨m, Option.some false, []⟩ := by
  unfold Module.load
  rw [if_pos h]

/-- Claim C7: registering a Kernel whose key already exists in the kernel
mapping forces the dll and cuda handles to None, clears the loaded flag,
and stores the new Kernel in place of the old one under that key. -/
theorem register_kernel_invalidates (m : Module) (k : MKernel)
    (h : dictContains m.kernels k.key = true) :
    ((m.register_kernel k).dll = Option.none)
    ∧ ((m.register_kernel k).cuda = Option.none)
    ∧ ((m.register_kernel k).loaded = false)
    ∧ (dictLookup (m.register_kernel k).kernels k.key = Option.some k) := by
  unfold Module.register_kernel
  simp [h, dictLookup_dictInsert]

def mC7 : Module :=
  ⟨"mod", [("saxpy", ⟨"saxpy", "old source"⟩)], [], Option.some 1, Option.some 2, true, false,
    [("max_unroll", "16"), ("mode", "release")]⟩

/-- Witness for register_kernel_invalidates: re-registering the kernel key
saxpy on a loaded module clears both artifact handles and the loaded flag
and replaces the stored kernel. -/
theorem register_kernel_invalidates_witness :
    ((mC7.register_kernel ⟨"saxpy", "new source"⟩).dll = Option.none)
    ∧ ((mC7.register_kernel ⟨"saxpy", "new source"⟩).cuda = Option.none)
    ∧ ((mC7.register_kernel ⟨"saxpy", "new source"⟩).loaded = false)
    ∧ (dictLookup (mC7.register_kernel ⟨"saxpy", "new source"⟩).kernels "saxpy"
        = Option.some ⟨"saxpy", "new source"⟩) :=
  register_kernel_invalidates mC7 ⟨"saxpy", "new source"⟩ (by decide)

theorem sortedKeys_perm_eq (l1 l2 : List (String × String)) (hp : l1.Perm l2) :
    sortedKeys l1 = sortedKeys l2 :=
  List.eq_of_perm_of_sorted
    ((List.perm_insertionSort strLe _).trans
      ((hp.map Prod.fst).trans (List.perm_insertionSort strLe _).symm))
    (List.sorted_insertionSort strLe _)
    (List.sorted_insertionSort strLe _)

/-- Claim C8: hash_module is a pure function of the module contents, so
two successive calls with no intervening registration or option changes
feed SHA-256 the same byte stream and return byte-identical digests; and
because the compiler options enter the stream in sorted key order, any two
modules whose option mappings hold the same key-value pairs, in whatever
insertion order, produce the same stream. -/
theorem hash_module_deterministic (m1 m2 : Module) (c : String)
    (hf : m1.functions = m2.functions) (hk : m1.kernels = m2.kernels)
    (hopt : m1.options.Perm m2.options)
    (hnd : (m1.options.map Prod.fst).Nodup) :
    m1.hash_module c = m2.hash_module c := by
  have hl : ∀ k, dictLookup m1.options k = dictLookup m2.options k :=
    fun k => dictLookup_perm hopt hnd k
  unfold Module.hash_module
  rw [hf, hk, sortedKeys_perm_eq _ _ hopt]
  simp [hl]

def mC8a : Module :=
  ⟨"m8", [("k", ⟨"k", "kernel source"⟩)], [("f", ⟨"f", "function source"⟩)],
    Option.none, Option.none, false, false,
    [("max_unroll", "16"), ("mode", "release")]⟩

def mC8b : Module :=
  { mC8a with options := [("mode", "release"), ("max_unroll", "16")] }

/-- Witness for hash_module_deterministic: two modules with the same
functions and kernels whose two options were set in opposite orders hash
to the same digest stream. -/
theorem hash_module_deterministic_witness :
    mC8a.hash_module "constant hash" = mC8b.hash_module "constant hash" :=
  hash_module_deterministic mC8a mC8b "constant hash" rfl rfl (by decide) (by decide)

/-- Claim C4: a cache-miss build whose toolchain invocation fails leaves
the module with build_failed set and raises; from then on every load call
returns failure immediately with no observable steps (no hash
recomputation, no source regeneration, no toolchain invocation), and
registering kernels never clears the flag, so it is permanent across the
operations of the model. -/
theorem build_failed_latch (m : Module) (env env2 : BuildEnv) (k : MKernel)
    (h1 : m.build_failed = false) (h2 : env.toolchain_ok = false)
    (h3 : env.cache_kernels = false) (h4 : env.enable_cpu = true) :
    ((m.load env).module.build_failed = true ∧ (m.load env).outcome = Option.none)
    ∧ ((m.load env).module.load env2 = ⟨(m.load env).module, Option.some false, []⟩)
    ∧ (((m.load env).module.register_kernel k).build_failed = true) := by
  have hm : (m.load env).module.build_failed = true ∧ (m.load env).outcome = Option.none := by
    unfold Module.load
    simp [h1, h2, h3, h4]
  refine ⟨hm, load_of_build_failed _ env2 hm.1, ?_⟩
  unfold Module.register_kernel
  by_cases hc : dictContains (m.load env).module.kernels k.key <;> simp [hc, hm.1]

def mC4 : Module :=
  ⟨"m4", [("k", ⟨"k", "kernel source"⟩)], [], Option.none, Option.none, false, false,
    [("max_unroll", "16"), ("mode", "release")]⟩

def envC4 : BuildEnv :=
  ⟨false, Option.none, true, false, Option.none, Option.none, false, Option.none,
    Option.none, "constant hash"⟩

/-- Witness for build_failed_latch: a concrete module whose only enabled
backend fails to compile latches build_failed; a repeated load
short-circuits and a kernel re-registration keeps the flag set. -/
theorem build_failed_latch_witness :
    (((mC4.load envC4).module.build_failed = true)
      ∧ (mC4.load envC4).outcome = Option.none)
    ∧ ((mC4.load envC4).module.load envC4 = ⟨(mC4.load envC4).module, Option.some false, []⟩)
    ∧ (((mC4.load envC4).module.register_kernel ⟨"k", "new source"⟩).build_failed = true) :=
  build_failed_latch mC4 envC4 envC4 ⟨"k", "new source"⟩ rfl rfl rfl rfl

/-
Launch marshaling model. A launch call observes the process-wide runtime
state (device availability, the optional active tape, the CUDA
verification setting) and a kernel descriptor (key, declared parameter
list, module load state); it produces the list of native dispatches
performed, the tape state after the call, and the raised error if any.
-/

/-- A declared kernel parameter: its label and type, as stored on
kernel.adj.args. -/
structure Param where
  label : String
  type : WType
deriving DecidableEq, Repr

/-- A host-side argument value passed to launch: None, a typed array
descriptor, a flat numeric sequence of a given length (tuples, lists and
external vector types, which the source funnels through
np.array(a).flatten()), or a host scalar. -/
inductive WVal where
  | vnone
  | varr (dtype : WType) (ndim : Nat) (device : String)
  | vseq (len : Nat)
  | vscalar
deriving DecidableEq, Repr

/-- A packed parameter as placed into the native parameter block. -/
inductive Packed where
  | nullArray
  | arrDesc (dtype : WType) (ndim : Nat) (device : String)
  | vecVal (n : Nat)
  | scalarVal
deriving DecidableEq, Repr

/-- Embedding of one iteration of pack_args from launch in
warp/context.py: array-typed parameters accept None as a null descriptor
and otherwise require an array argument matching dtype, dimension count
and launch device, in that checking order; fixed-size vector and matrix
parameters require the flattened argument length to equal the declared
component count (non-sequence arguments flatten to length 1); any other
parameter type is packed through the scalar constructor, which accepts
host scalars and fails on everything else. -/
def pack_one (kernel_key device : String) (p : Param) (v : WVal) : Except String Packed :=
  match p.type with
  | .arr dtype ndim =>
    match v with
    | .vnone => .ok .nullArray
    | .varr d n dev =>
      if d ≠ dtype then
        .error ("Error launching kernel " ++ kernel_key ++ ", argument " ++ p.label
          ++ " expects an array with a different dtype")
      else if n ≠ ndim then
        .error ("Error launching kernel " ++ kernel_key ++ ", argument " ++ p.label
          ++ " expects an array with different dimensions")
      else if dev ≠ device then
        .error ("Error launching kernel " ++ kernel_key ++ ", trying to launch on device "
          ++ device ++ " but the input array for argument " ++ p.label ++ " is on another device")
      else .ok (.arrDesc d n dev)
    | _ =>
      .error ("Error launching kernel " ++ kernel_key ++ ", argument " ++ p.label
        ++ " expects an array, but passed value has another type")
  | .vec n =>
    match v with
    | .vseq l =>
      if l ≠ n then
        .error ("Error launching kernel " ++ kernel_key ++ ", parameter for argument "
          ++ p.label ++ " has the wrong length")
      else .ok (.vecVal n)
    | _ =>
      if 1 ≠ n then
        .error ("Error launching kernel " ++ kernel_key ++ ", parameter for argument "
          ++ p.label ++ " has the wrong length")
      else .ok (.vecVal n)
  | _ =>
    match v with
    | .vscalar => .ok .scalarVal
    | _ =>
      .error ("Error launching kernel, unable to pack kernel parameter type for param "
        ++ p.label)

/-- Embedding of pack_args: arguments are packed in order against the
declared parameter list by position; the first failing argument aborts the
call. Supplying more arguments than declared parameters indexes past the
end of kernel.adj.args and raises. Supplying fewer simply packs fewer (the
forward path has already checked the count; the adjoint path may legally
pass an empty list). -/
def pack_args (kernel_key device : String) : List Param → List WVal → Except String (List Packed)
  | _, [] => .ok []
  | [], _ :: _ => .error "IndexError: argument list is longer than the declared parameter list"
  | p :: ps, v :: vs =>
    match pack_one kernel_key device p v with
    | .error e => .error e
    | .ok x =>
      match pack_args kernel_key device ps vs with
      | .error e => .error e
      | .ok xs => .ok (x :: xs)

/-- A kernel as seen by launch: its key, its declared parameters
(kernel.adj.args), whether its module is already loaded, and whether a
delay-load triggered by this launch would succeed. -/
structure LKernel where
  key : String
  args : List Param
  module_loaded : Bool
  module_load_ok : Bool
deriving DecidableEq, Repr

/-- One tape entry: runtime.tape.record(kernel, dim, inputs, outputs,
device) captures the kernel identity, the thread extent and the exact
forward argument lists. -/
structure TapeRecord where
  kernel_key : String
  dim : List Nat
  inputs : List WVal
  outputs : List WVal
  device : String
deriving DecidableEq, Repr

/-- Process-wide runtime state observed by launch and zeros: backend
availability, the active tape (None when no tape is active), and whether
the optional post-dispatch CUDA device verification passes. -/
structure LaunchEnv where
  cpu_available : Bool
  cuda_available : Bool
  tape : Option (List TapeRecord)
  verify_cuda_ok : Bool
deriving DecidableEq, Repr

/-- Embedding of get_devices from warp/context.py: the recognized device
tokens present in this environment, cpu first. -/
def get_devices (env : LaunchEnv) : List String :=
  (if env.cpu_available = true then ["cpu"] else [])
    ++ (if env.cuda_available = true then ["cuda"] else [])

/-- Embedding of is_device_available. -/
def is_device_available (env : LaunchEnv) (device : String) : Bool :=
  (get_devices env).contains device

/-- A native dispatch performed by launch. -/
inductive Dispatch where
  | forward_cpu (key : String)
  | backward_cpu (key : String)
  | forward_cuda (key : String)
  | backward_cuda (key : String)
deriving DecidableEq, Repr

/-- Modelled from the spec: launch_bounds_t lives in warp/types.py, which
is not among the provided sources. Per the spec the launch bound is built
from 1 to 4 integer extents and the launch is a no-op exactly when the
computed total thread count is zero, so the size is the product of the
extents. -/
def launch_bounds_size (dim : List Nat) : Nat :=
  dim.foldl (fun a b => a * b) 1

/-- Result of a launch call: the native dispatches performed, the tape
state after the call, and the raised error if any. -/
structure LaunchResult where
  dispatches : List Dispatch
  tape : Option (List TapeRecord)
  error : Option String
deriving DecidableEq, Repr

/-- The tape side effect at the end of launch: when a tape is active
(runtime.tape is set) the record is appended, otherwise nothing happens. -/
def tape_append (tape : Option (List TapeRecord)) (r : TapeRecord) :
    Option (List TapeRecord) :=
  match tape with
  | Option.none => Option.none
  | Option.some t => Option.some (t ++ [r])

/-- The native dispatch performed by launch for a given device and
direction: backward or forward on CPU, backward or forward on CUDA, and
nothing for any other device string (the source chains an if on cpu and an
elif on cuda with no else). -/
def launch_dispatch (key device : String) (adjoint : Bool) : List Dispatch :=
  if device = "cpu" then
    (if adjoint = true then [Dispatch.backward_cpu key] else [Dispatch.forward_cpu key])
  else if device = "cuda" then
    (if adjoint = true then [Dispatch.backward_cuda key] else [Dispatch.forward_cuda key])
  else []

/-- Embedding of launch from warp/context.py, in source order: the device
availability check; the delayed module load, whose failure silently skips
the launch; the launch bounds; then, only when the total thread count is
positive: the forward argument count check against the declared parameter
count, packing of forward then adjoint arguments, the native dispatch for
the chosen device and direction, and on CUDA the post-dispatch device
verification which raises after the dispatch already happened. Finally,
whenever a tape is active, a record is appended; this sits outside both
the thread-count guard and the adjoint branch. The isinstance check on the
kernel argument is enforced by the embedding's types. -/
def launch (env : LaunchEnv) (kernel : LKernel) (dim : List Nat)
    (inputs outputs adj_inputs adj_outputs : List WVal)
    (device : String) (adjoint : Bool) : LaunchResult :=
  if is_device_available env device = false then
    ⟨[], env.tape,
      Option.some ("Error launching kernel, device " ++ device ++ " is not available.")⟩
  else if kernel.module_loaded = false ∧ kernel.module_load_ok = false then
    ⟨[], env.tape, Option.none⟩
  else if launch_bounds_size dim > 0 then
    (if (inputs ++ outputs).length ≠ kernel.args.length then
      ⟨[], env.tape,
        Option.some ("Error launching kernel " ++ kernel.key ++ ", passed "
          ++ toString (inputs ++ outputs).length ++ " arguments but kernel requires "
          ++ toString kernel.args.length ++ ".")⟩
    else
      match pack_args kernel.key device kernel.args (inputs ++ outputs) with
      | .error e => ⟨[], env.tape, Option.some e⟩
      | .ok _ =>
        match pack_args kernel.key device kernel.args (adj_inputs ++ adj_outputs) with
        | .error e => ⟨[], env.tape, Option.some e⟩
        | .ok _ =>
          if device = "cuda" ∧ env.verify_cuda_ok = false then
            ⟨launch_dispatch kernel.key device adjoint, env.tape,
              Option.some ("Error launching kernel: " ++ kernel.key
                ++ " on device " ++ device)⟩
          else
            ⟨launch_dispatch kernel.key device adjoint,
              tape_append env.tape ⟨kernel.key, dim, inputs, outputs, device⟩,
              Option.none⟩)
  else
    ⟨[], tape_append env.tape ⟨kernel.key, dim, inputs, outputs, device⟩, Option.none⟩

def envC1 : LaunchEnv := ⟨true, false, Option.none, true⟩

def kC1 : LKernel :=
  ⟨"saxpy", [⟨"x", WType.arr WType.tfloat 1⟩, ⟨"y", WType.arr WType.tfloat 1⟩], true, true⟩

/-- Counterexample for claim C1: the claim asserts that a mismatched
argument count raises a Launch Error for all launch calls, including those
whose computed total thread count is zero. In the source the count check
sits inside the positive-thread-count guard, so launching a 2-parameter
kernel with zero forward arguments and dim 0 raises no error at all (and
performs no dispatch): the call returns successfully. -/
theorem launch_zero_dim_skips_count_check :
    launch envC1 kC1 [0] [] [] [] [] "cpu" false
      = ⟨[], Option.none, Option.none⟩ := by decide

/-- Claim C1 (amended): for every launch call that reaches the marshaling
stage - the device is available, the module is loaded or its delayed load
succeeds, and the computed total thread count is positive - a forward
argument count differing from the declared parameter count raises a Launch
Error naming the kernel, the tape is left unchanged, and no native
dispatch is performed. (Zero-thread-count launches skip the check
entirely, as the counterexample shows.) -/
theorem launch_arg_count_mismatch (env : LaunchEnv) (kernel : LKernel) (dim : List Nat)
    (inputs outputs adj_inputs adj_outputs : List WVal) (device : String) (adjoint : Bool)
    (hdev : is_device_available env device = true)
    (hload : ¬ (kernel.module_loaded = false ∧ kernel.module_load_ok = false))
    (hsize : launch_bounds_size dim > 0)
    (hcount : (inputs ++ outputs).length ≠ kernel.args.length) :
    launch env kernel dim inputs outputs adj_inputs adj_outputs device adjoint
      = ⟨[], env.tape,
          Option.some ("Error launching kernel " ++ kernel.key ++ ", passed "
            ++ toString (inputs ++ outputs).length ++ " arguments but kernel requires "
            ++ toString kernel.args.length ++ ".")⟩ := by
  unfold launch
  simp [hdev, hload, hsize, hcount]
  intro h
  exact absurd h (by simpa using hcount)

/-- Witness for launch_arg_count_mismatch: the 2-parameter kernel saxpy
launched over 2 threads with a single forward argument raises the
count-mismatch Launch Error and dispatches nothing. -/
theorem launch_arg_count_mismatch_witness :
    launch envC1 kC1 [2] [WVal.varr WType.tfloat 1 "cpu"] [] [] [] "cpu" false
      = ⟨[], Option.none,
          Option.some ("Error launching kernel " ++ "saxpy" ++ ", passed "
            ++ toString ([WVal.varr WType.tfloat 1 "cpu"] ++ ([] : List WVal)).length
            ++ " arguments but kernel requires " ++ toString kC1.args.length ++ ".")⟩ :=
  launch_arg_count_mismatch envC1 kC1 [2] [WVal.varr WType.tfloat 1 "cpu"] [] [] [] "cpu" false
    (by decide) (by decide) (by decide) (by decide)

def envC2 : LaunchEnv := ⟨true, false, Option.some [], true⟩

def kC2 : LKernel := ⟨"k0", [], true, true⟩

/-- Counterexample for claim C2: the claim asserts that with a tape active
a launch record is appended only after a successful forward dispatch and
never for a purely-backward (adjoint=True) dispatch. In the source the
tape recording sits at the end of launch outside the adjoint branch, so a
backward CPU dispatch with the tape active appends a record too. -/
theorem launch_adjoint_appends_tape_record :
    (launch envC2 kC2 [1] [] [] [] [] "cpu" true).tape
        = Option.some [⟨"k0", [1], [], [], "cpu"⟩]
    ∧ (launch envC2 kC2 [1] [] [] [] [] "cpu" true).dispatches
        = [Dispatch.backward_cpu "k0"]
    ∧ (launch envC2 kC2 [1] [] [] [] [] "cpu" true).error = Option.none := by decide

/-- Case analysis of a launch call: either it raises and leaves the tape
unchanged, or it is silently skipped after a failed delayed module load
(no error, tape unchanged), or it runs to completion and, when a tape is
active, appends exactly one record. -/
theorem launch_tape_shape (env : LaunchEnv) (kernel : LKernel) (dim : List Nat)
    (inputs outputs adj_inputs adj_outputs : List WVal) (device : String) (adjoint : Bool) :
    ((launch env kernel dim inputs outputs adj_inputs adj_outputs device adjoint).error
        ≠ Option.none
      ∧ (launch env kernel dim inputs outputs adj_inputs adj_outputs device adjoint).tape
        = env.tape)
    ∨ ((launch env kernel dim inputs outputs adj_inputs adj_outputs device adjoint).error
        = Option.none
      ∧ (kernel.module_loaded = false ∧ kernel.module_load_ok = false)
      ∧ (launch env kernel dim inputs outputs adj_inputs adj_outputs device adjoint).tape
        = env.tape)
    ∨ ((launch env kernel dim inputs outputs adj_inputs adj_outputs device adjoint).error
        = Option.none
      ∧ ¬ (kernel.module_loaded = false ∧ kernel.module_load_ok = false)
      ∧ (launch env kernel dim inputs outputs adj_inputs adj_outputs device adjoint).tape
        = tape_append env.tape ⟨kernel.key, dim, inputs, outputs, device⟩) := by
  rcases hr : launch env kernel dim inputs outputs adj_inputs adj_outputs device adjoint
    with ⟨ds, tp, er⟩
  unfold launch at hr
  by_cases h1 : is_device_available env device = false
  · rw [if_pos h1] at hr
    injection hr with ha hb hc
    subst hb; subst hc
    left; exact ⟨by simp, rfl⟩
  · rw [if_neg h1] at hr
    by_cases h2 : kernel.module_loaded = false ∧ kernel.module_load_ok = false
    · rw [if_pos h2] at hr
      injection hr with ha hb hc
      subst hb; subst hc
      right; left; exact ⟨rfl, h2, rfl⟩
    · rw [if_neg h2] at hr
      by_cases h3 : launch_bounds_size dim > 0
      · rw [if_pos h3] at hr
        by_cases h4 : (inputs ++ outputs).length ≠ kernel.args.length
        · rw [if_pos h4] at hr
          injection hr with ha hb hc
          subst hb; subst hc
          left; exact ⟨by simp, rfl⟩
        · rw [if_neg h4] at hr
          cases hp1 : pack_args kernel.key device kernel.args (inputs ++ outputs) with
          | error e =>
            simp only [hp1] at hr
            injection hr with ha hb hc
            subst hb; subst hc
            left; exact ⟨by simp, rfl⟩
          | ok l1 =>
            simp only [hp1] at hr
            cases hp2 : pack_args kernel.key device kernel.args (adj_inputs ++ adj_outputs) with
            | error e =>
              simp only [hp2] at hr
              injection hr with ha hb hc
              subst hb; subst hc
              left; exact ⟨by simp, rfl⟩
            | ok l2 =>
              simp only [hp2] at hr
              by_cases h5 : device = "cuda" ∧ env.verify_cuda_ok = false
              · rw [if_pos h5] at hr
                injection hr with ha hb hc
                subst hb; subst hc
                left; exact ⟨by simp, rfl⟩
              · rw [if_neg h5] at hr
                injection hr with ha hb hc
                subst hb; subst hc
                right; right; exact ⟨rfl, h2, rfl⟩
      · rw [if_neg h3] at hr
        injection hr with ha hb hc
        subst hb; subst hc
        right; right; exact ⟨rfl, h2, rfl⟩

/-- Claim C2 (amended): when no tape is active launch leaves the tape
state unchanged; when a tape is active, a launch record is appended
exactly when the call runs to completion without raising and without the
silent skip that follows a failed delayed module load - that includes
purely-backward (adjoint=True) dispatches and zero-thread-count launches
that dispatch nothing - and the tape is unchanged whenever the call
raises. -/
theorem tape_record_after_completion (env : LaunchEnv) (kernel : LKernel) (dim : List Nat)
    (inputs outputs adj_inputs adj_outputs : List WVal) (device : String) (adjoint : Bool) :
    (env.tape = Option.none →
      (launch env kernel dim inputs outputs adj_inputs adj_outputs device adjoint).tape
        = Option.none)
    ∧ (∀ t, env.tape = Option.some t →
        (((launch env kernel dim inputs outputs adj_inputs adj_outputs device adjoint).error
              ≠ Option.none
            ∨ (kernel.module_loaded = false ∧ kernel.module_load_ok = false)) →
          (launch env kernel dim inputs outputs adj_inputs adj_outputs device adjoint).tape
            = Option.some t)
        ∧ ((launch env kernel dim inputs outputs adj_inputs adj_outputs device adjoint).error
              = Option.none
            ∧ ¬ (kernel.module_loaded = false ∧ kernel.module_load_ok = false) →
          (launch env kernel dim inputs outputs adj_inputs adj_outputs device adjoint).tape
            = Option.some (t ++ [⟨kernel.key, dim, inputs, outputs, device⟩]))) := by
  rcases launch_tape_shape env kernel dim inputs outputs adj_inputs adj_outputs device adjoint
    with ⟨he, ht⟩ | ⟨he, hm, ht⟩ | ⟨he, hnm, ht⟩
  · exact ⟨fun h0 => by rw [ht, h0],
      fun t h => ⟨fun _ => by rw [ht, h], fun hc => absurd hc.1 he⟩⟩
  · exact ⟨fun h0 => by rw [ht, h0],
      fun t h => ⟨fun _ => by rw [ht, h], fun hc => absurd hm hc.2⟩⟩
  · refine ⟨fun h0 => by rw [ht, h0]; rfl, fun t h => ⟨?_, fun _ => by rw [ht, h]; rfl⟩⟩
    rintro (hc | hc)
    · exact absurd he hc
    · exact absurd hc hnm

/-- Witness for tape_record_after_completion: a forward launch with no
active tape leaves the tape state unchanged, and with an active empty tape
a completed forward launch appends exactly its own record. -/
theorem tape_record_after_completion_witness :
    (launch envC1 kC2 [1] [] [] [] [] "cpu" false).tape = Option.none
    ∧ (launch envC2 kC2 [1] [] [] [] [] "cpu" false).tape
        = Option.some [⟨"k0", [1], [], [], "cpu"⟩] :=
  ⟨(tape_record_after_completion envC1 kC2 [1] [] [] [] [] "cpu" false).1 rfl,
    by
      have h := ((tape_record_after_completion envC2 kC2 [1] [] [] [] [] "cpu" false).2
        [] rfl).2 ⟨by decide, by decide⟩
      simpa using h⟩

/-
Array allocation and copy model.
-/

/-- An allocation performed by zeros: the allocator used (per device) and
the requested byte count. -/
structure AllocEvent where
  device : String
  num_bytes : Nat
deriving DecidableEq, Repr

/-- Result of a zeros call: the allocations performed and the raised error
if any. -/
structure ZerosResult where
  allocs : List AllocEvent
  error : Option String
deriving DecidableEq, Repr

/-- Embedding of zeros from warp/context.py: the uninitialized-runtime
check, the unknown-device check, the CUDA-availability check - all three
before any allocation - then the element count as the product of the shape
extents, the byte count, the allocation (and zero-fill) on the chosen
allocator, and the failed-allocation check, which fires only for a None
pointer with a positive byte count. -/
def zeros (runtime_initialized cuda_available alloc_ok : Bool)
    (shape : List Nat) (dtype_size : Nat) (device : String) : ZerosResult :=
  if runtime_initialized = false then
    ⟨[], Option.some "Warp not initialized, call wp.init() before use"⟩
  else if device ≠ "cpu" ∧ device ≠ "cuda" then
    ⟨[], Option.some ("Trying to allocate array on unknown device " ++ device)⟩
  else if device = "cuda" ∧ cuda_available = false then
    ⟨[], Option.some "Trying to allocate CUDA buffer without GPU support"⟩
  else
    let num_bytes := (shape.foldl (fun a b => a * b) 1) * dtype_size
    if alloc_ok = false ∧ num_bytes > 0 then
      ⟨[⟨device, num_bytes⟩], Option.some "Memory allocation failed on device"⟩
    else
      ⟨[⟨device, num_bytes⟩], Option.none⟩

/-- Claim C9: cpu and cuda are the only recognized device tokens. Any
other device string passed to launch fails the availability check - the
available-device list is always a sublist of [cpu, cuda] - raising a
Device Error with no native dispatch and no tape change, and passed to an
initialized zeros raises the unknown-device Device Error with no
allocation performed. -/
theorem unknown_device_rejected (env : LaunchEnv) (kernel : LKernel) (dim : List Nat)
    (inputs outputs adj_inputs adj_outputs : List WVal) (adjoint : Bool)
    (cuda_available alloc_ok : Bool) (shape : List Nat) (dtype_size : Nat)
    (device : String) (h1 : device ≠ "cpu") (h2 : device ≠ "cuda") :
    (launch env kernel dim inputs outputs adj_inputs adj_outputs device adjoint
      = ⟨[], env.tape,
          Option.some ("Error launching kernel, device " ++ device ++ " is not available.")⟩)
    ∧ (zeros true cuda_available alloc_ok shape dtype_size device
      = ⟨[], Option.some ("Trying to allocate array on unknown device " ++ device)⟩) := by
  have hdev : is_device_available env device = false := by
    unfold is_device_available get_devices
    cases hc : env.cpu_available <;> cases hg : env.cuda_available <;>
      simp [List.contains, List.elem_cons, h1, h2]
  constructor
  · unfold launch
    rw [if_pos hdev]
  · unfold zeros
    rw [if_neg (by simp), if_pos ⟨h1, h2⟩]

/-- Witness for unknown_device_rejected: the unrecognized device string
tpu is rejected by launch before any dispatch and by zeros before any
allocation. -/
theorem unknown_device_rejected_witness :
    (launch envC1 kC1 [2] [] [] [] [] "tpu" false
      = ⟨[], Option.none,
          Option.some ("Error launching kernel, device " ++ "tpu" ++ " is not available.")⟩)
    ∧ (zeros true false true [4] 4 "tpu"
      = ⟨[], Option.some ("Trying to allocate array on unknown device " ++ "tpu")⟩) :=
  unknown_device_rejected envC1 kC1 [2] [] [] [] [] false false true [4] 4 "tpu"
    (by decide) (by decide)

/-- An array as copy sees it: element count, element size in bytes
(type_size_in_bytes of its dtype), device string and base pointer. -/
structure CArr where
  size : Nat
  dtype_size : Nat
  device : String
  ptr : Int
deriving DecidableEq, Repr

/-- The four memcpy primitives of the native core. -/
inductive CopyKind where
  | h2d
  | d2h
  | h2h
  | d2d
deriving DecidableEq, Repr

/-- A memcpy invocation: primitive, destination pointer, source pointer,
byte count. -/
structure CopyEvent where
  kind : CopyKind
  dst_ptr : Int
  src_ptr : Int
  bytes : Int
deriving DecidableEq, Repr

/-- Result of a copy call: the memcpy invocations performed and the raised
error if any. -/
structure CopyResult where
  events : List CopyEvent
  error : Option String
deriving DecidableEq, Repr

/-- Embedding of copy from warp/context.py: a non-positive count defaults
to the source element count; offsets and sizes are scaled to bytes by the
respective element sizes; the source-bound and destination-bound checks
run before any memcpy primitive; then the device pair selects the
primitive, and an unexpected pair raises. -/
def copy (dest src : CArr) (dest_offset src_offset count : Int) : CopyResult :=
  let count2 : Int := if count ≤ 0 then (src.size : Int) else count
  let bytes_to_copy := count2 * (src.dtype_size : Int)
  let src_size_in_bytes := (src.size : Int) * (src.dtype_size : Int)
  let dst_size_in_bytes := (dest.size : Int) * (dest.dtype_size : Int)
  let src_offset_in_bytes := src_offset * (src.dtype_size : Int)
  let dst_offset_in_bytes := dest_offset * (dest.dtype_size : Int)
  let src_ptr := src.ptr + src_offset_in_bytes
  let dst_ptr := dest.ptr + dst_offset_in_bytes
  if src_offset_in_bytes + bytes_to_copy > src_size_in_bytes then
    ⟨[], Option.some "Trying to copy source buffer from an offset range larger than source size"⟩
  else if dst_offset_in_bytes + bytes_to_copy > dst_size_in_bytes then
    ⟨[], Option.some "Trying to copy source buffer to an offset range larger than destination size"⟩
  else if src.device = "cpu" ∧ dest.device = "cuda" then
    ⟨[⟨CopyKind.h2d, dst_ptr, src_ptr, bytes_to_copy⟩], Option.none⟩
  else if src.device = "cuda" ∧ dest.device = "cpu" then
    ⟨[⟨CopyKind.d2h, dst_ptr, src_ptr, bytes_to_copy⟩], Option.none⟩
  else if src.device = "cpu" ∧ dest.device = "cpu" then
    ⟨[⟨CopyKind.h2h, dst_ptr, src_ptr, bytes_to_copy⟩], Option.none⟩
  else if src.device = "cuda" ∧ dest.device = "cuda" then
    ⟨[⟨CopyKind.d2d, dst_ptr, src_ptr, bytes_to_copy⟩], Option.none⟩
  else
    ⟨[], Option.some "Unexpected source and destination combination"⟩

/-- Claim C10: a non-positive count makes copy behave exactly as if the
source element count had been passed, and whenever the requested byte
range runs past the source size or past the destination size, copy raises
and invokes no memcpy primitive. -/
theorem copy_count_default_and_bounds (dest src : CArr) (dest_offset src_offset count : Int) :
    (count ≤ 0 →
      copy dest src dest_offset src_offset count
        = copy dest src dest_offset src_offset (src.size : Int))
    ∧ (src_offset * (src.dtype_size : Int)
          + (if count ≤ 0 then (src.size : Int) else count) * (src.dtype_size : Int)
          > (src.size : Int) * (src.dtype_size : Int) →
        (copy dest src dest_offset src_offset count).events = []
          ∧ ∃ msg, (copy dest src dest_offset src_offset count).error = Option.some msg)
    ∧ (dest_offset * (dest.dtype_size : Int)
          + (if count ≤ 0 then (src.size : Int) else count) * (src.dtype_size : Int)
          > (dest.size : Int) * (dest.dtype_size : Int) →
        (copy dest src dest_offset src_offset count).events = []
          ∧ ∃ msg, (copy dest src dest_offset src_offset count).error = Option.some msg) := by
  refine ⟨?_, ?_, ?_⟩
  · intro h
    unfold copy
    rw [if_pos h]
    by_cases h2 : (src.size : Int) ≤ 0
    · rw [if_pos h2]
    · rw [if_neg h2]
  · intro h
    unfold copy
    rw [if_pos h]
    exact ⟨rfl, _, rfl⟩
  · intro h
    unfold copy
    by_cases h2 : src_offset * (src.dtype_size : Int)
        + (if count ≤ 0 then (src.size : Int) else count) * (src.dtype_size : Int)
        > (src.size : Int) * (src.dtype_size : Int)
    · rw [if_pos h2]
      exact ⟨rfl, _, rfl⟩
    · rw [if_neg h2, if_pos h]
      exact ⟨rfl, _, rfl⟩

def srcC10 : CArr := ⟨4, 4, "cpu", 1000⟩

def destC10 : CArr := ⟨2, 4, "cpu", 2000⟩

/-- Witness for copy_count_default_and_bounds: with a negative count the
copy equals the whole-source copy; copying 4 elements from source offset 2
overruns the 4-element source and raises with no memcpy; copying 4
elements into a 2-element destination overruns it and raises with no
memcpy. -/
theorem copy_count_default_and_bounds_witness :
    (copy destC10 srcC10 0 0 (-1) = copy destC10 srcC10 0 0 ((4 : Nat) : Int))
    ∧ ((copy destC10 srcC10 0 2 4).events = []
        ∧ ∃ msg, (copy destC10 srcC10 0 2 4).error = Option.some msg)
    ∧ ((copy destC10 srcC10 0 0 4).events = []
        ∧ ∃ msg, (copy destC10 srcC10 0 0 4).error = Option.some msg) :=
  ⟨(copy_count_default_and_bounds destC10 srcC10 0 0 (-1)).1 (by decide),
    (copy_count_default_and_bounds destC10 srcC10 0 2 4).2.1 (by decide),
    (copy_count_default_and_bounds destC10 srcC10 0 0 4).2.2 (by decide)⟩

end Warp
